import Mathlib

/-!
# ScreenshotCommandHandler (IEDriver)

A shallow embedding of `cpp/iedriver/CommandHandlers/ScreenshotCommandHandler.h`.

The handler's only field is `image_`, a possibly-null pointer to a `CImage`.
Everything the handler asks of Windows, ATL and GDI+ (window geometry,
`CImage::Create`, `PrintWindow`, `GetPixel`, `CImage::Save`, the stream calls)
is an input of the model: the functions below take the answers of those calls
as arguments and are otherwise a line by line transcription of the C++.
Logging (`LOG`, `LOGHR`) changes no state; only the two warnings of
`CaptureBrowser` are kept, as a list of messages.
-/

namespace webdriver

/-! ## Windows basics -/

/-- A Windows `HRESULT`, a signed 32-bit value. -/
abbrev HRESULT := Int

/-- The success code `S_OK`. -/
def S_OK : HRESULT := 0

/-- The code `E_FAIL` (0x80004005 read as a signed 32-bit value). -/
def E_FAIL : HRESULT := -2147467259

/-- The code `E_POINTER` (0x80004003 read as a signed 32-bit value). -/
def E_POINTER : HRESULT := -2147467261

/-- The `FAILED` test of winerror.h: the value is negative. -/
def FAILED (hr : HRESULT) : Bool := decide (hr < 0)

/-- A `COLORREF`, a 32-bit colour value. -/
abbrev COLORREF := Nat

/-- The value `CLR_INVALID` that GDI hands back when no pixel can be read. -/
def CLR_INVALID : COLORREF := 4294967295

/-- The largest `int`. -/
def INT_MAX : Int := 2147483647

/-- The effect of `static_cast<int>` on a 64-bit quantity: keep the low 32 bits,
read as a signed value. -/
def toInt32 (v : Int) : Int :=
  let r := v % 4294967296
  if r < 2147483648 then r else r - 4294967296

/-- A `RECT` as `GetWindowRect` fills it. -/
structure RECT where
  left : Int
  top : Int
  right : Int
  bottom : Int

/-! ## The image object -/

/-- What the handler can observe of an ATL `CImage`: its width, its height and
the colour `GetPixel` reports at each position. -/
structure CImage where
  GetWidth : Int
  GetHeight : Int
  GetPixel : Int → Int → COLORREF

/-- A `CImage` right after `new CImage()`: no bitmap attached, so both
dimensions are zero and no pixel can be read. -/
def CImage.fresh : CImage :=
  { GetWidth := 0, GetHeight := 0, GetPixel := fun _ _ => CLR_INVALID }

/-! ## IsSameColour -/

/-- The inner loop of `IsSameColour`, `for (int j = ...; j < GetHeight(); j++)`,
for a fixed column `i`. The result is `false` when the loop hits the
`return false`, and `true` when it runs to its end. -/
def IsSameColour.rows (image_ : CImage) (firstPixelColour : COLORREF) (i : Int) (j : Int) : Bool :=
  if j < image_.GetHeight then
    if firstPixelColour ≠ image_.GetPixel i j then
      false
    else
      IsSameColour.rows image_ firstPixelColour i (j + 1)
  else
    true
termination_by (image_.GetHeight - j).toNat
decreasing_by omega

/-- The outer loop of `IsSameColour`, `for (int i = ...; i < GetWidth(); i++)`. -/
def IsSameColour.columns (image_ : CImage) (firstPixelColour : COLORREF) (i : Int) : Bool :=
  if i < image_.GetWidth then
    if IsSameColour.rows image_ firstPixelColour i 0 then
      IsSameColour.columns image_ firstPixelColour (i + 1)
    else
      false
  else
    true
termination_by (image_.GetWidth - i).toNat
decreasing_by omega

/-- The method `IsSameColour`: read pixel (0,0), then compare every pixel to it. -/
def IsSameColour (image_ : CImage) : Bool :=
  let firstPixelColour := image_.GetPixel 0 0
  IsSameColour.columns image_ firstPixelColour 0

/-! ## The handler -/

/-- What the run of a command leaves behind, in order: allocations and releases
of the image object, the calls of `CaptureBrowser` (with the value of the loop
counter `i`), of `IsSameColour` and of `GetBase64Data` (with the image they
read), and the calls of `::Sleep` (with the delay in milliseconds). -/
inductive Event where
  | alloc : Event
  | release : Event
  | capture (i : Nat) : Event
  | uniformity (image : CImage) : Event
  | sleep (ms : Nat) : Event
  | encode (image : Option CImage) : Event

/-- The state of a `ScreenshotCommandHandler`: the field `image_`, `none` for
`NULL`. -/
structure Handler where
  image_ : Option CImage

/-- The constructor: `this->image_ = NULL`. -/
def Handler.init : Handler := { image_ := none }

/-- What `ExecuteInternal` stores in `*response`: `SetErrorResponse` or
`SetSuccessResponse`. -/
inductive Response where
  | error (status_code : Int) (message : String) : Response
  | success (value : String) : Response

/-- The method `ClearImage`: delete the image when there is one. -/
def ClearImage (this : Handler) : Handler × List Event :=
  match this.image_ with
  | some _ => ({ this with image_ := none }, [Event.release])
  | none => (this, [])

/-- The method `GetWindowDimensions`: `(width, height)` of the window rectangle.
The fields of a `RECT` are 32-bit and so are `*width` and `*height`: each
difference is kept to 32 bits. -/
def GetWindowDimensions (window_rect : RECT) : Int × Int :=
  (toInt32 (window_rect.right - window_rect.left),
    toInt32 (window_rect.bottom - window_rect.top))

/-- The answers of the platform during one call of `CaptureBrowser`:
the rectangle `GetWindowRect` reports for the content window, what
`CImage::Create(width, height, bits)` answers and does to the image, and what
`::PrintWindow` answers and does to the image. -/
structure Window where
  GetWindowRect : RECT
  Create : CImage → Int → Int → Int → Bool × CImage
  PrintWindow : CImage → Bool × CImage

/-- The method `CaptureBrowser`, run on the image object `image_` points to.
The result is the returned `HRESULT`, the image object afterwards and the
warnings logged. `GetDC` and `ReleaseDC` leave nothing to observe. -/
def CaptureBrowser (browser : Window) (image_ : CImage) : HRESULT × CImage × List String :=
  let content := GetWindowDimensions browser.GetWindowRect
  let content_width := content.1
  let content_height := content.2
  let created := browser.Create image_ content_width content_height 32
  let log1 := if !created.1 then ["Unable to initialize image object"] else []
  let print_result := browser.PrintWindow created.2
  let log2 := if !print_result.1 then
      ["PrintWindow API is not able to get content window screenshot"] else []
  (S_OK, print_result.2, log1 ++ log2)

/-! ## Base64 (ATL) -/

/-- A byte of the PNG stream. -/
abbrev BYTE := Fin 256

/-- The standard base64 alphabet. -/
def base64Table : List Char :=
  "ABCDEFGHIJKLMNOPQRSTUVWXYZabcdefghijklmnopqrstuvwxyz0123456789+/".toList

/-- The character of the alphabet for a 6-bit value. -/
def base64Char (n : Nat) : Char := base64Table.getD n '='

/-- Modelled from the spec: the text `Base64Encode` of ATL (atlenc.h, not among
the sources) writes under `ATL_BASE64_FLAG_NOCRLF`: the standard alphabet, three
bytes to four characters, no line break, the last group padded with `=`. -/
def base64Text : List BYTE → List Char
  | [] => []
  | [a] => [base64Char (a.val / 4), base64Char (a.val % 4 * 16), '=', '=']
  | [a, b] =>
    [base64Char (a.val / 4), base64Char (a.val % 4 * 16 + b.val / 16),
      base64Char (b.val % 16 * 4), '=']
  | a :: b :: c :: rest =>
    base64Char (a.val / 4) :: base64Char (a.val % 4 * 16 + b.val / 16) ::
      base64Char (b.val % 16 * 4 + c.val / 64) :: base64Char (c.val % 64) :: base64Text rest

/-- Modelled from the spec: `Base64EncodeGetRequiredLength(nSrcLen,
ATL_BASE64_FLAG_NOCRLF)` of ATL (atlenc.h, not among the sources): the length
of the base64 text of `nSrcLen` bytes without line breaks, four characters for
every started group of three bytes. -/
def Base64EncodeGetRequiredLength (nSrcLen : Int) : Int :=
  4 * ((nSrcLen + 2) / 3)

/-- Modelled from the spec: `Base64Encode(pbSrcData, nSrcLen, szDest, pnDestLen,
ATL_BASE64_FLAG_NOCRLF)` of ATL (atlenc.h, not among the sources). `none` is the
answer `FALSE`, given when the destination is shorter than the required
length; otherwise the characters written to `szDest`, whose number is stored
in `*pnDestLen`. -/
def Base64Encode (pbSrcData : List BYTE) (nSrcLen : Int) (nDestLen : Int) : Option (List Char) :=
  if nDestLen < Base64EncodeGetRequiredLength nSrcLen then none
  else some (base64Text (pbSrcData.take nSrcLen.toNat))

/-- The assignment `data = data_array` from a `char*`: the characters before
the first NUL. -/
def cString (data_array : List Char) : String :=
  String.mk (data_array.takeWhile (fun c => c != '\x00'))

/-- The answers of the platform during one call of `GetBase64Data`: the results
of `::CreateStreamOnHGlobal`, of `image_->Save` (with the bytes then in the
stream), of `stream->Stat` (which reports the number of those bytes), of
`::GetHGlobalFromStream`, and whether `::GlobalLock` gives a non-null address. -/
structure Streams where
  CreateStreamOnHGlobal : HRESULT
  Save : CImage → HRESULT × List BYTE
  Stat : HRESULT
  GetHGlobalFromStream : HRESULT
  GlobalLock : Bool

/-- The method `GetBase64Data`: the returned `HRESULT` and the string `data`
afterwards. -/
def GetBase64Data (os : Streams) (image_ : Option CImage) (data : String) : HRESULT × String :=
  match image_ with
  | none => (E_POINTER, data)
  | some image =>
    let hr := os.CreateStreamOnHGlobal
    if FAILED hr then (hr, data) else
    let saved := os.Save image
    let hr := saved.1
    if FAILED hr then (hr, data) else
    let hr := os.Stat
    if FAILED hr then (hr, data) else
    let cbSize : Int := saved.2.length
    let hr := os.GetHGlobalFromStream
    if FAILED hr then (hr, data) else
    let stream_size := toInt32 cbSize
    let length := Base64EncodeGetRequiredLength stream_size
    if length ≤ 0 then (E_FAIL, data) else
    if !os.GlobalLock then (E_FAIL, data) else
    match Base64Encode saved.2 stream_size length with
    | none => (E_FAIL, data)
    | some data_array => (S_OK, cString (data_array ++ ['\x00']))

/-! ## ExecuteInternal -/

/-- How the `do ... while` loop of `ExecuteInternal` is left: by the `return`
inside it, with the response set, or by its condition turning false. -/
inductive LoopExit where
  | returned (this : Handler) (response : Response) : LoopExit
  | finished (this : Handler) : LoopExit

/-- The handler state at the exit of the loop. -/
def LoopExit.handler : LoopExit → Handler
  | .returned this _ => this
  | .finished this => this

/-- The `do ... while ((i < tries) && isSameColour)` loop of `ExecuteInternal`,
entered with the counter at `i`. `capture i image` stands for the call
`this->CaptureBrowser(browser_wrapper)` made while the counter is `i`, on the
freshly allocated image. -/
def ExecuteInternal.loop (capture : Nat → CImage → HRESULT × CImage) (tries : Nat) (i : Nat)
    (this : Handler) : LoopExit × List Event :=
  let cleared := ClearImage this
  let captured := capture i CImage.fresh
  let this : Handler := { cleared.1 with image_ := some captured.2 }
  let hr := captured.1
  if FAILED hr then
    let cleared2 := ClearImage this
    (LoopExit.returned cleared2.1 (Response.success ""),
      cleared.2 ++ [Event.alloc, Event.capture i] ++ cleared2.2)
  else
    let isSameColour := IsSameColour captured.2
    let slept := if isSameColour then [Event.sleep 2000] else []
    let body := cleared.2 ++ [Event.alloc, Event.capture i, Event.uniformity captured.2] ++ slept
    if _h : i + 1 < tries ∧ isSameColour = true then
      let rest := ExecuteInternal.loop capture tries (i + 1) this
      (rest.1, body ++ rest.2)
    else
      (LoopExit.finished this, body)
termination_by tries - i
decreasing_by omega

/-- The method `ExecuteInternal` with its two callees as arguments:
`status_code` is what `executor.GetCurrentBrowser` answered, `capture` stands for
`CaptureBrowser` and `encode` for `GetBase64Data`. The result is the handler
afterwards, the response and the events in order. -/
def ExecuteInternalWith (WD_SUCCESS : Int) (status_code : Int)
    (capture : Nat → CImage → HRESULT × CImage)
    (encode : Option CImage → String → HRESULT × String)
    (this : Handler) : Handler × Response × List Event :=
  if status_code ≠ WD_SUCCESS then
    (this, Response.error status_code "Unable to get browser", [])
  else
    match ExecuteInternal.loop capture 4 0 this with
    | (LoopExit.returned this response, events) => (this, response, events)
    | (LoopExit.finished this, events) =>
      let base64_screenshot := ""
      let encoded := encode this.image_ base64_screenshot
      let hr := encoded.1
      if FAILED hr then
        let cleared := ClearImage this
        (cleared.1, Response.success "", events ++ [Event.encode this.image_] ++ cleared.2)
      else
        let cleared := ClearImage this
        (cleared.1, Response.success encoded.2, events ++ [Event.encode this.image_] ++ cleared.2)

/-- Everything outside the handler during one command: the value of the
constant `WD_SUCCESS` (errorcodes.h, not among the sources), the status
`executor.GetCurrentBrowser` answers, the platform during the capture made
while the loop counter is `i`, and the platform during `GetBase64Data`. -/
structure World where
  WD_SUCCESS : Int
  GetCurrentBrowser : Int
  browser : Nat → Window
  streams : Streams

/-- The method `ExecuteInternal`. -/
def ExecuteInternal (w : World) (this : Handler) : Handler × Response × List Event :=
  ExecuteInternalWith w.WD_SUCCESS w.GetCurrentBrowser
    (fun i image => ((CaptureBrowser (w.browser i) image).1, (CaptureBrowser (w.browser i) image).2.1))
    (GetBase64Data w.streams) this

/-! ## Reading a list of events -/

/-- Is the event a call of `CaptureBrowser`? -/
def Event.isCapture : Event → Bool
  | .capture _ => true
  | _ => false

/-- Is the event a call of `::Sleep`? -/
def Event.isSleep : Event → Bool
  | .sleep _ => true
  | _ => false

/-- The number of capture attempts among the events. -/
def captureCount (events : List Event) : Nat := events.countP Event.isCapture

/-- The number of sleeps among the events. -/
def sleepCount (events : List Event) : Nat := events.countP Event.isSleep

/-- The number of images alive after the events, when `live` were alive
before: allocations minus releases. -/
def liveImages (live : Int) : List Event → Int
  | [] => live
  | Event.alloc :: rest => liveImages (live + 1) rest
  | Event.release :: rest => liveImages (live - 1) rest
  | _ :: rest => liveImages live rest

/-- The number of images a handler holds: one when `image_` is not `NULL`. -/
def Handler.held (this : Handler) : Int := if this.image_.isSome then 1 else 0

/-- Were there never fewer than zero nor more than one image alive, before
the events and after each of them, when `live` were alive before? -/
def atMostOneLive (live : Int) : List Event → Bool
  | [] => decide (0 ≤ live ∧ live ≤ 1)
  | e :: rest => decide (0 ≤ live ∧ live ≤ 1) && atMostOneLive (liveImages live [e]) rest

/-! ## Worlds to run the handler in -/

/-- A 1x1 content window painted in one colour (red). -/
def solidWindow : Window :=
  { GetWindowRect := { left := 0, top := 0, right := 1, bottom := 1 }
    Create := fun image width height _ => (true, { image with GetWidth := width, GetHeight := height })
    PrintWindow := fun image => (true, { image with GetPixel := fun _ _ => 255 }) }

/-- A 2x2 content window with the pixels red, red; red, blue. -/
def redBlueWindow : Window :=
  { GetWindowRect := { left := 0, top := 0, right := 2, bottom := 2 }
    Create := fun image width height _ => (true, { image with GetWidth := width, GetHeight := height })
    PrintWindow := fun image =>
      (true, { image with GetPixel := fun i j => if i = 1 ∧ j = 1 then 16711680 else 255 }) }

/-- A content window of size zero: `Create` refuses to make the bitmap and
`PrintWindow` writes nothing. -/
def emptyWindow : Window :=
  { GetWindowRect := { left := 0, top := 0, right := 0, bottom := 0 }
    Create := fun image _ _ _ => (false, image)
    PrintWindow := fun image => (false, image) }

/-- A 2x2 content window that is not painted: `Create` makes a bitmap of zeros
and `PrintWindow` answers `FALSE` and writes nothing. -/
def unpaintedWindow : Window :=
  { GetWindowRect := { left := 0, top := 0, right := 2, bottom := 2 }
    Create := fun _ width height _ =>
      (true, { GetWidth := width, GetHeight := height, GetPixel := fun _ _ => 0 })
    PrintWindow := fun image => (false, image) }

/-- Stream calls that all succeed; saving leaves four bytes in the stream. -/
def fourByteStreams : Streams :=
  { CreateStreamOnHGlobal := S_OK
    Save := fun _ => (S_OK, [137, 80, 78, 71])
    Stat := S_OK
    GetHGlobalFromStream := S_OK
    GlobalLock := true }

/-- Stream calls in which `Save` fails on an image without a bitmap (width
zero) and leaves four bytes in the stream for any other image. -/
def bitmapStreams : Streams :=
  { CreateStreamOnHGlobal := S_OK
    Save := fun image => if image.GetWidth = 0 then (E_FAIL, []) else (S_OK, [137, 80, 78, 71])
    Stat := S_OK
    GetHGlobalFromStream := S_OK
    GlobalLock := true }

/-- The browser shows the one-colour window at every try. -/
def solidWorld : World :=
  { WD_SUCCESS := 0, GetCurrentBrowser := 0, browser := fun _ => solidWindow,
    streams := fourByteStreams }

/-- The browser shows the red and blue window at every try. -/
def redBlueWorld : World :=
  { WD_SUCCESS := 0, GetCurrentBrowser := 0, browser := fun _ => redBlueWindow,
    streams := fourByteStreams }

/-- There is no current browser: `GetCurrentBrowser` answers a status other
than `WD_SUCCESS`. -/
def noBrowserWorld : World :=
  { WD_SUCCESS := 0, GetCurrentBrowser := 23, browser := fun _ => redBlueWindow,
    streams := fourByteStreams }

/-- The content window has size zero at every try. -/
def emptyWindowWorld : World :=
  { WD_SUCCESS := 0, GetCurrentBrowser := 0, browser := fun _ => emptyWindow,
    streams := fourByteStreams }

/-- The content window is not painted at any try. -/
def unpaintedWorld : World :=
  { WD_SUCCESS := 0, GetCurrentBrowser := 0, browser := fun _ => unpaintedWindow,
    streams := fourByteStreams }

/-- The content window has size zero at every try, and `Save` fails on an
image without a bitmap. -/
def noBitmapWorld : World :=
  { WD_SUCCESS := 0, GetCurrentBrowser := 0, browser := fun _ => emptyWindow,
    streams := bitmapStreams }

/-! ## Lemmas -/

theorem IsSameColour.rows_eq_true_iff (image_ : CImage) (c : COLORREF) (i : Int) (j : Int) :
    IsSameColour.rows image_ c i j = true ↔
      ∀ j', j ≤ j' → j' < image_.GetHeight → image_.GetPixel i j' = c := by
  generalize hn : (image_.GetHeight - j).toNat = n
  induction n generalizing j with
  | zero =>
    rw [IsSameColour.rows]
    have hj : ¬ j < image_.GetHeight := by omega
    simp only [hj, if_false, true_iff]
    intro j' h1 h2
    omega
  | succ n ih =>
    rw [IsSameColour.rows]
    have hj : j < image_.GetHeight := by omega
    simp only [hj, if_true]
    by_cases hc : c = image_.GetPixel i j
    · subst hc
      simp only [ne_eq, not_true_eq_false, if_false]
      rw [ih (j + 1) (by omega)]
      constructor
      · intro h j' h1 h2
        rcases eq_or_lt_of_le h1 with heq | hlt
        · subst heq; rfl
        · exact h j' (by omega) h2
      · intro h j' h1 h2
        exact h j' (by omega) h2
    · simp only [ne_eq, hc, not_false_eq_true, if_true, Bool.false_eq_true, false_iff]
      intro h
      exact hc (h j (le_refl j) hj).symm

theorem IsSameColour.columns_eq_true_iff (image_ : CImage) (c : COLORREF) (i : Int) :
    IsSameColour.columns image_ c i = true ↔
      ∀ i' j', i ≤ i' → i' < image_.GetWidth → 0 ≤ j' → j' < image_.GetHeight →
        image_.GetPixel i' j' = c := by
  generalize hn : (image_.GetWidth - i).toNat = n
  induction n generalizing i with
  | zero =>
    rw [IsSameColour.columns]
    have hi : ¬ i < image_.GetWidth := by omega
    simp only [hi, if_false, true_iff]
    intro i' j' h1 h2
    omega
  | succ n ih =>
    rw [IsSameColour.columns]
    have hi : i < image_.GetWidth := by omega
    simp only [hi, if_true]
    by_cases hr : IsSameColour.rows image_ c i 0 = true
    · simp only [hr, if_true]
      rw [ih (i + 1) (by omega)]
      rw [IsSameColour.rows_eq_true_iff] at hr
      constructor
      · intro h i' j' h1 h2 h3 h4
        rcases eq_or_lt_of_le h1 with heq | hlt
        · subst heq; exact hr j' h3 h4
        · exact h i' j' (by omega) h2 h3 h4
      · intro h i' j' h1 h2 h3 h4
        exact h i' j' (by omega) h2 h3 h4
    · simp only [hr, if_false, Bool.false_eq_true, false_iff]
      intro h
      apply hr
      rw [IsSameColour.rows_eq_true_iff]
      intro j' h3 h4
      exact h i j' (le_refl i) hi h3 h4

theorem IsSameColour_eq_true_iff (image_ : CImage) :
    IsSameColour image_ = true ↔
      ∀ i j, 0 ≤ i → i < image_.GetWidth → 0 ≤ j → j < image_.GetHeight →
        image_.GetPixel i j = image_.GetPixel 0 0 := by
  unfold IsSameColour
  exact IsSameColour.columns_eq_true_iff image_ _ 0

/-- C4. `IsSameColour` answers `true` exactly when every pixel `(i, j)` with
`0 ≤ i < width` and `0 ≤ j < height` has the colour of pixel `(0, 0)`; so it
answers `true` on every 1x1 image and on every image with a zero dimension,
and `false` once one pixel of the image differs from pixel `(0, 0)`. -/
theorem C4_IsSameColour_iff_all_pixels_equal_first (image_ : CImage) :
    (IsSameColour image_ = true ↔
        ∀ i j, 0 ≤ i → i < image_.GetWidth → 0 ≤ j → j < image_.GetHeight →
          image_.GetPixel i j = image_.GetPixel 0 0) ∧
      (image_.GetWidth = 1 ∧ image_.GetHeight = 1 → IsSameColour image_ = true) ∧
      (image_.GetWidth = 0 ∨ image_.GetHeight = 0 → IsSameColour image_ = true) ∧
      ((∃ i j, 0 ≤ i ∧ i < image_.GetWidth ∧ 0 ≤ j ∧ j < image_.GetHeight ∧
          image_.GetPixel i j ≠ image_.GetPixel 0 0) → IsSameColour image_ = false) := by
  have key := IsSameColour_eq_true_iff image_
  refine ⟨key, ?_, ?_, ?_⟩
  · rintro ⟨hw, hh⟩
    rw [key]
    intro i j h1 h2 h3 h4
    have hi : i = 0 := by omega
    have hj : j = 0 := by omega
    rw [hi, hj]
  · intro h
    rw [key]
    intro i j h1 h2 h3 h4
    omega
  · rintro ⟨i, j, h1, h2, h3, h4, hne⟩
    cases hs : IsSameColour image_ with
    | false => rfl
    | true => exact absurd (key.mp hs i j h1 h2 h3 h4) hne

theorem redBlue_not_uniform :
    IsSameColour (CaptureBrowser redBlueWindow CImage.fresh).2.1 = false := by
  rw [Bool.eq_false_iff, ne_eq, IsSameColour_eq_true_iff]
  intro h
  have h11 := h 1 1 (by decide) (by decide) (by decide) (by decide)
  revert h11
  decide

theorem solid_uniform :
    IsSameColour (CaptureBrowser solidWindow CImage.fresh).2.1 = true := by
  rw [IsSameColour_eq_true_iff]
  intro i j _ _ _ _
  rfl

/-! ## The retry loop -/

theorem ClearImage_some (image : CImage) :
    ClearImage { image_ := some image } = ({ image_ := none }, [Event.release]) := rfl

theorem loop_failed (capture : Nat → CImage → HRESULT × CImage) (tries i : Nat) (this : Handler)
    (hf : FAILED (capture i CImage.fresh).1 = true) :
    ExecuteInternal.loop capture tries i this =
      (LoopExit.returned { image_ := none } (Response.success ""),
        (ClearImage this).2 ++ [Event.alloc, Event.capture i, Event.release]) := by
  rw [ExecuteInternal.loop]
  simp [hf, ClearImage_some]

theorem loop_again (capture : Nat → CImage → HRESULT × CImage) (tries i : Nat) (this : Handler)
    (hf : FAILED (capture i CImage.fresh).1 = false)
    (hs : IsSameColour (capture i CImage.fresh).2 = true) (hi : i + 1 < tries) :
    ExecuteInternal.loop capture tries i this =
      ((ExecuteInternal.loop capture tries (i + 1) { image_ := some (capture i CImage.fresh).2 }).1,
        (ClearImage this).2 ++
          [Event.alloc, Event.capture i, Event.uniformity (capture i CImage.fresh).2,
            Event.sleep 2000] ++
          (ExecuteInternal.loop capture tries (i + 1)
            { image_ := some (capture i CImage.fresh).2 }).2) := by
  rw [ExecuteInternal.loop]
  simp [hf, hs, hi]

theorem loop_last (capture : Nat → CImage → HRESULT × CImage) (tries i : Nat) (this : Handler)
    (hf : FAILED (capture i CImage.fresh).1 = false)
    (hs : IsSameColour (capture i CImage.fresh).2 = true) (hi : ¬ i + 1 < tries) :
    ExecuteInternal.loop capture tries i this =
      (LoopExit.finished { image_ := some (capture i CImage.fresh).2 },
        (ClearImage this).2 ++
          [Event.alloc, Event.capture i, Event.uniformity (capture i CImage.fresh).2,
            Event.sleep 2000]) := by
  rw [ExecuteInternal.loop]
  simp [hf, hs, hi]

theorem loop_accept (capture : Nat → CImage → HRESULT × CImage) (tries i : Nat) (this : Handler)
    (hf : FAILED (capture i CImage.fresh).1 = false)
    (hs : IsSameColour (capture i CImage.fresh).2 = false) :
    ExecuteInternal.loop capture tries i this =
      (LoopExit.finished { image_ := some (capture i CImage.fresh).2 },
        (ClearImage this).2 ++
          [Event.alloc, Event.capture i, Event.uniformity (capture i CImage.fresh).2]) := by
  rw [ExecuteInternal.loop]
  simp [hf, hs]

theorem loop_cases (capture : Nat → CImage → HRESULT × CImage) (tries i : Nat) (this : Handler)
    (P : LoopExit × List Event → Prop)
    (h1 : FAILED (capture i CImage.fresh).1 = true →
      P (LoopExit.returned { image_ := none } (Response.success ""),
        (ClearImage this).2 ++ [Event.alloc, Event.capture i, Event.release]))
    (h2 : FAILED (capture i CImage.fresh).1 = false →
      IsSameColour (capture i CImage.fresh).2 = true → i + 1 < tries →
      P ((ExecuteInternal.loop capture tries (i + 1)
          { image_ := some (capture i CImage.fresh).2 }).1,
        (ClearImage this).2 ++
          [Event.alloc, Event.capture i, Event.uniformity (capture i CImage.fresh).2,
            Event.sleep 2000] ++
          (ExecuteInternal.loop capture tries (i + 1)
            { image_ := some (capture i CImage.fresh).2 }).2))
    (h3 : FAILED (capture i CImage.fresh).1 = false →
      IsSameColour (capture i CImage.fresh).2 = true → ¬ i + 1 < tries →
      P (LoopExit.finished { image_ := some (capture i CImage.fresh).2 },
        (ClearImage this).2 ++
          [Event.alloc, Event.capture i, Event.uniformity (capture i CImage.fresh).2,
            Event.sleep 2000]))
    (h4 : FAILED (capture i CImage.fresh).1 = false →
      IsSameColour (capture i CImage.fresh).2 = false →
      P (LoopExit.finished { image_ := some (capture i CImage.fresh).2 },
        (ClearImage this).2 ++
          [Event.alloc, Event.capture i, Event.uniformity (capture i CImage.fresh).2])) :
    P (ExecuteInternal.loop capture tries i this) := by
  cases hf : FAILED (capture i CImage.fresh).1 with
  | true => rw [loop_failed _ _ _ _ hf]; exact h1 hf
  | false =>
    cases hs : IsSameColour (capture i CImage.fresh).2 with
    | false => rw [loop_accept _ _ _ _ hf hs]; exact h4 hf hs
    | true =>
      by_cases hi : i + 1 < tries
      · rw [loop_again _ _ _ _ hf hs hi]; exact h2 hf hs hi
      · rw [loop_last _ _ _ _ hf hs hi]; exact h3 hf hs hi

theorem captureCount_append (a b : List Event) :
    captureCount (a ++ b) = captureCount a + captureCount b := by
  simp [captureCount, List.countP_append]

theorem captureCount_ClearImage (this : Handler) : captureCount (ClearImage this).2 = 0 := by
  unfold ClearImage
  cases h : this.image_ <;> simp [h, captureCount, Event.isCapture]

theorem captureCount_failed (i : Nat) :
    captureCount [Event.alloc, Event.capture i, Event.release] = 1 := rfl

theorem captureCount_slept (i : Nat) (image : CImage) :
    captureCount [Event.alloc, Event.capture i, Event.uniformity image, Event.sleep 2000] = 1 :=
  rfl

theorem captureCount_accepted (i : Nat) (image : CImage) :
    captureCount [Event.alloc, Event.capture i, Event.uniformity image] = 1 := rfl

theorem loop_captureCount (capture : Nat → CImage → HRESULT × CImage) (tries i : Nat)
    (this : Handler) :
    1 ≤ captureCount (ExecuteInternal.loop capture tries i this).2 ∧
      captureCount (ExecuteInternal.loop capture tries i this).2 ≤ max 1 (tries - i) := by
  generalize hn : tries - i = n
  induction n generalizing i this with
  | zero =>
    apply loop_cases capture tries i this
      (fun r => 1 ≤ captureCount r.2 ∧ captureCount r.2 ≤ max 1 0)
    · intro _
      simp only [captureCount_append, captureCount_ClearImage, captureCount_failed]
      omega
    · intro _ _ hi
      omega
    · intro _ _ _
      simp only [captureCount_append, captureCount_ClearImage, captureCount_slept]
      omega
    · intro _ _
      simp only [captureCount_append, captureCount_ClearImage, captureCount_accepted]
      omega
  | succ n ih =>
    apply loop_cases capture tries i this
      (fun r => 1 ≤ captureCount r.2 ∧ captureCount r.2 ≤ max 1 (n + 1))
    · intro _
      simp only [captureCount_append, captureCount_ClearImage, captureCount_failed]
      omega
    · intro _ _ hi
      have h := ih (i + 1) { image_ := some (capture i CImage.fresh).2 } (by omega)
      simp only [captureCount_append, captureCount_ClearImage, captureCount_slept]
      omega
    · intro _ _ _
      simp only [captureCount_append, captureCount_ClearImage, captureCount_slept]
      omega
    · intro _ _
      simp only [captureCount_append, captureCount_ClearImage, captureCount_accepted]
      omega

theorem loop_exit (capture : Nat → CImage → HRESULT × CImage) (tries i : Nat) (this : Handler) :
    (∃ j, i ≤ j ∧ FAILED (capture j CImage.fresh).1 = true ∧
        (ExecuteInternal.loop capture tries i this).1 =
          LoopExit.returned { image_ := none } (Response.success "")) ∨
      (∃ j, i ≤ j ∧ FAILED (capture j CImage.fresh).1 = false ∧
        (ExecuteInternal.loop capture tries i this).1 =
          LoopExit.finished { image_ := some (capture j CImage.fresh).2 }) := by
  generalize hn : tries - i = n
  induction n generalizing i this with
  | zero =>
    apply loop_cases capture tries i this
      (fun r => (∃ j, i ≤ j ∧ FAILED (capture j CImage.fresh).1 = true ∧
          r.1 = LoopExit.returned { image_ := none } (Response.success "")) ∨
        (∃ j, i ≤ j ∧ FAILED (capture j CImage.fresh).1 = false ∧
          r.1 = LoopExit.finished { image_ := some (capture j CImage.fresh).2 }))
    · intro hf; exact Or.inl ⟨i, le_refl i, hf, rfl⟩
    · intro _ _ hi; omega
    · intro hf _ _; exact Or.inr ⟨i, le_refl i, hf, rfl⟩
    · intro hf _; exact Or.inr ⟨i, le_refl i, hf, rfl⟩
  | succ n ih =>
    apply loop_cases capture tries i this
      (fun r => (∃ j, i ≤ j ∧ FAILED (capture j CImage.fresh).1 = true ∧
          r.1 = LoopExit.returned { image_ := none } (Response.success "")) ∨
        (∃ j, i ≤ j ∧ FAILED (capture j CImage.fresh).1 = false ∧
          r.1 = LoopExit.finished { image_ := some (capture j CImage.fresh).2 }))
    · intro hf; exact Or.inl ⟨i, le_refl i, hf, rfl⟩
    · intro _ _ hi
      rcases ih (i + 1) { image_ := some (capture i CImage.fresh).2 } (by omega) with
        ⟨j, hj, hf, he⟩ | ⟨j, hj, hf, he⟩
      · exact Or.inl ⟨j, by omega, hf, he⟩
      · exact Or.inr ⟨j, by omega, hf, he⟩
    · intro hf _ _; exact Or.inr ⟨i, le_refl i, hf, rfl⟩
    · intro hf _; exact Or.inr ⟨i, le_refl i, hf, rfl⟩

/-! ## ExecuteInternal -/

theorem loop_finished_of_captures (capture : Nat → CImage → HRESULT × CImage) (tries i : Nat)
    (this : Handler)
    (h : ∀ j, Event.capture j ∈ (ExecuteInternal.loop capture tries i this).2 →
      FAILED (capture j CImage.fresh).1 = false) :
    ∃ j, (ExecuteInternal.loop capture tries i this).1 =
      LoopExit.finished { image_ := some (capture j CImage.fresh).2 } := by
  generalize hn : tries - i = n at *
  induction n generalizing i this with
  | zero =>
    revert h
    apply loop_cases capture tries i this
      (fun r => (∀ j, Event.capture j ∈ r.2 → FAILED (capture j CImage.fresh).1 = false) →
        ∃ j, r.1 = LoopExit.finished { image_ := some (capture j CImage.fresh).2 })
    · intro hf h
      rw [h i (by simp)] at hf
      cases hf
    · intro _ _ hi
      omega
    · intro _ _ _ _
      exact ⟨i, rfl⟩
    · intro _ _ _
      exact ⟨i, rfl⟩
  | succ n ih =>
    revert h
    apply loop_cases capture tries i this
      (fun r => (∀ j, Event.capture j ∈ r.2 → FAILED (capture j CImage.fresh).1 = false) →
        ∃ j, r.1 = LoopExit.finished { image_ := some (capture j CImage.fresh).2 })
    · intro hf h
      rw [h i (by simp)] at hf
      cases hf
    · intro _ _ hi h
      exact ih (i + 1) { image_ := some (capture i CImage.fresh).2 }
        (fun j hj => h j (List.mem_append_right _ hj)) (by omega)
    · intro _ _ _ _
      exact ⟨i, rfl⟩
    · intro _ _ _
      exact ⟨i, rfl⟩

theorem ExecuteInternalWith_returned (WD_SUCCESS status_code : Int)
    (capture : Nat → CImage → HRESULT × CImage)
    (encode : Option CImage → String → HRESULT × String) (this that : Handler)
    (response : Response)
    (hb : status_code = WD_SUCCESS)
    (hl : (ExecuteInternal.loop capture 4 0 this).1 = LoopExit.returned that response) :
    ExecuteInternalWith WD_SUCCESS status_code capture encode this =
      (that, response, (ExecuteInternal.loop capture 4 0 this).2) := by
  unfold ExecuteInternalWith
  rcases hr : ExecuteInternal.loop capture 4 0 this with ⟨r, ev⟩
  rw [hr] at hl
  simp only at hl
  subst hl
  simp [hb]

theorem ExecuteInternalWith_finished (WD_SUCCESS status_code : Int)
    (capture : Nat → CImage → HRESULT × CImage)
    (encode : Option CImage → String → HRESULT × String) (this : Handler) (image : CImage)
    (hb : status_code = WD_SUCCESS)
    (hl : (ExecuteInternal.loop capture 4 0 this).1 = LoopExit.finished { image_ := some image }) :
    ExecuteInternalWith WD_SUCCESS status_code capture encode this =
      ({ image_ := none },
        Response.success
          (if FAILED (encode (some image) "").1 then "" else (encode (some image) "").2),
        (ExecuteInternal.loop capture 4 0 this).2 ++
          [Event.encode (some image), Event.release]) := by
  unfold ExecuteInternalWith
  rcases hr : ExecuteInternal.loop capture 4 0 this with ⟨r, ev⟩
  rw [hr] at hl
  simp only at hl
  subst hl
  cases hf : FAILED (encode (some image) "").1 <;> simp [hb, hf, ClearImage_some]

theorem ExecuteInternalWith_events (WD_SUCCESS status_code : Int)
    (capture : Nat → CImage → HRESULT × CImage)
    (encode : Option CImage → String → HRESULT × String) (this : Handler)
    (hb : status_code = WD_SUCCESS) :
    ∃ tail, (ExecuteInternalWith WD_SUCCESS status_code capture encode this).2.2 =
      (ExecuteInternal.loop capture 4 0 this).2 ++ tail := by
  rcases loop_exit capture 4 0 this with ⟨j, _, _, he⟩ | ⟨j, _, _, he⟩
  · rw [ExecuteInternalWith_returned WD_SUCCESS status_code capture encode this _ _ hb he]
    exact ⟨[], by simp⟩
  · rw [ExecuteInternalWith_finished WD_SUCCESS status_code capture encode this _ hb he]
    exact ⟨_, rfl⟩

/-- C2. When `GetCurrentBrowser` answers a status other than `WD_SUCCESS`,
`ExecuteInternal` leaves the handler as it was, sets the error response with
that status, and does nothing else: no capture, no sleep, no encoding. The
response is not the success response with the empty payload. -/
theorem C2_browser_error_is_reported (WD_SUCCESS status_code : Int)
    (capture : Nat → CImage → HRESULT × CImage)
    (encode : Option CImage → String → HRESULT × String) (this : Handler)
    (h : status_code ≠ WD_SUCCESS) :
    ExecuteInternalWith WD_SUCCESS status_code capture encode this =
        (this, Response.error status_code "Unable to get browser", []) ∧
      (ExecuteInternalWith WD_SUCCESS status_code capture encode this).2.1 ≠
        Response.success "" := by
  have he : ExecuteInternalWith WD_SUCCESS status_code capture encode this =
      (this, Response.error status_code "Unable to get browser", []) := by
    unfold ExecuteInternalWith
    simp [h]
  refine ⟨he, ?_⟩
  rw [he]
  intro hc
  cases hc

/-- C2 at a concrete input: the status 23 with `WD_SUCCESS` equal to 0. -/
theorem C2_browser_error_is_reported_witness :
    (23 : Int) ≠ 0 ∧
      ExecuteInternal noBrowserWorld Handler.init =
        (Handler.init, Response.error 23 "Unable to get browser", []) :=
  ⟨by decide,
    (C2_browser_error_is_reported 0 23
      (fun i image => ((CaptureBrowser (noBrowserWorld.browser i) image).1,
        (CaptureBrowser (noBrowserWorld.browser i) image).2.1))
      (GetBase64Data noBrowserWorld.streams) Handler.init (by decide)).1⟩

/-- C6. `ExecuteInternal` is a total function of the answers it gets, and
whatever the capturer, the images and the encoder are, it makes at most 4
capture attempts, and at least 1 when browser resolution succeeds. -/
theorem C6_at_most_four_capture_attempts (WD_SUCCESS status_code : Int)
    (capture : Nat → CImage → HRESULT × CImage)
    (encode : Option CImage → String → HRESULT × String) (this : Handler) :
    captureCount (ExecuteInternalWith WD_SUCCESS status_code capture encode this).2.2 ≤ 4 ∧
      (status_code = WD_SUCCESS →
        1 ≤ captureCount (ExecuteInternalWith WD_SUCCESS status_code capture encode this).2.2) := by
  by_cases hb : status_code = WD_SUCCESS
  · have hc := loop_captureCount capture 4 0 this
    have hcount : captureCount
        (ExecuteInternalWith WD_SUCCESS status_code capture encode this).2.2 =
        captureCount (ExecuteInternal.loop capture 4 0 this).2 := by
      rcases loop_exit capture 4 0 this with ⟨j, _, _, he⟩ | ⟨j, _, _, he⟩
      · rw [ExecuteInternalWith_returned WD_SUCCESS status_code capture encode this _ _ hb he]
      · rw [ExecuteInternalWith_finished WD_SUCCESS status_code capture encode this _ hb he]
        have h2 : ∀ image : CImage,
            captureCount [Event.encode (some image), Event.release] = 0 := fun _ => rfl
        simp only [captureCount_append, h2, Nat.add_zero]
    rw [hcount]
    omega
  · have he : ExecuteInternalWith WD_SUCCESS status_code capture encode this =
        (this, Response.error status_code "Unable to get browser", []) := by
      unfold ExecuteInternalWith
      simp [hb]
    rw [he]
    exact ⟨by simp [captureCount], fun h => absurd h hb⟩

theorem sleepCount_append (a b : List Event) :
    sleepCount (a ++ b) = sleepCount a + sleepCount b := by
  simp [sleepCount, List.countP_append]

theorem sleepCount_ClearImage (this : Handler) : sleepCount (ClearImage this).2 = 0 := by
  unfold ClearImage
  cases h : this.image_ <;> simp [h, sleepCount, Event.isSleep]

theorem ExecuteInternalWith_all_uniform (WD_SUCCESS status_code : Int)
    (capture : Nat → CImage → HRESULT × CImage)
    (encode : Option CImage → String → HRESULT × String) (this : Handler)
    (hb : status_code = WD_SUCCESS)
    (hf : ∀ i, i < 4 → FAILED (capture i CImage.fresh).1 = false)
    (hs : ∀ i, i < 4 → IsSameColour (capture i CImage.fresh).2 = true) :
    ExecuteInternalWith WD_SUCCESS status_code capture encode this =
        ({ image_ := none },
          Response.success
            (if FAILED (encode (some (capture 3 CImage.fresh).2) "").1 then ""
              else (encode (some (capture 3 CImage.fresh).2) "").2),
          (ClearImage this).2 ++
            [Event.alloc, Event.capture 0, Event.uniformity (capture 0 CImage.fresh).2,
              Event.sleep 2000, Event.release,
              Event.alloc, Event.capture 1, Event.uniformity (capture 1 CImage.fresh).2,
              Event.sleep 2000, Event.release,
              Event.alloc, Event.capture 2, Event.uniformity (capture 2 CImage.fresh).2,
              Event.sleep 2000, Event.release,
              Event.alloc, Event.capture 3, Event.uniformity (capture 3 CImage.fresh).2,
              Event.sleep 2000,
              Event.encode (some (capture 3 CImage.fresh).2), Event.release]) := by
  have hl : ExecuteInternal.loop capture 4 0 this =
      (LoopExit.finished { image_ := some (capture 3 CImage.fresh).2 },
        (ClearImage this).2 ++
          [Event.alloc, Event.capture 0, Event.uniformity (capture 0 CImage.fresh).2,
            Event.sleep 2000, Event.release,
            Event.alloc, Event.capture 1, Event.uniformity (capture 1 CImage.fresh).2,
            Event.sleep 2000, Event.release,
            Event.alloc, Event.capture 2, Event.uniformity (capture 2 CImage.fresh).2,
            Event.sleep 2000, Event.release,
            Event.alloc, Event.capture 3, Event.uniformity (capture 3 CImage.fresh).2,
            Event.sleep 2000]) := by
    rw [loop_again capture 4 0 this (hf 0 (by decide)) (hs 0 (by decide)) (by decide),
      loop_again capture 4 1 _ (hf 1 (by decide)) (hs 1 (by decide)) (by decide),
      loop_again capture 4 2 _ (hf 2 (by decide)) (hs 2 (by decide)) (by decide),
      loop_last capture 4 3 _ (hf 3 (by decide)) (hs 3 (by decide)) (by decide)]
    simp [ClearImage_some]
  have he := ExecuteInternalWith_finished WD_SUCCESS status_code capture encode this
    (capture 3 CImage.fresh).2 hb (by rw [hl])
  rw [hl] at he
  rw [he]
  simp

theorem ExecuteInternalWith_all_uniform_counts (WD_SUCCESS status_code : Int)
    (capture : Nat → CImage → HRESULT × CImage)
    (encode : Option CImage → String → HRESULT × String) (this : Handler)
    (hb : status_code = WD_SUCCESS)
    (hf : ∀ i, i < 4 → FAILED (capture i CImage.fresh).1 = false)
    (hs : ∀ i, i < 4 → IsSameColour (capture i CImage.fresh).2 = true) :
    captureCount (ExecuteInternalWith WD_SUCCESS status_code capture encode this).2.2 = 4 ∧
      sleepCount (ExecuteInternalWith WD_SUCCESS status_code capture encode this).2.2 = 4 := by
  rw [ExecuteInternalWith_all_uniform WD_SUCCESS status_code capture encode this hb hf hs]
  constructor
  · simp only [List.append_assoc, List.cons_append, List.nil_append, captureCount_append,
      captureCount_ClearImage]
    rfl
  · simp only [List.append_assoc, List.cons_append, List.nil_append, sleepCount_append,
      sleepCount_ClearImage]
    rfl

/-- C7. When browser resolution succeeds, the first capture succeeds and its
image is not of one colour, `ExecuteInternal` accepts that image at once: one
capture attempt, no sleep, one call of the encoder, on that image, and then the
release of the image; when the encoder succeeds the response is the success
response whose payload is the encoder's string. -/
theorem C7_first_varied_image_is_accepted (WD_SUCCESS status_code : Int)
    (capture : Nat → CImage → HRESULT × CImage)
    (encode : Option CImage → String → HRESULT × String) (this : Handler)
    (hb : status_code = WD_SUCCESS)
    (hf : FAILED (capture 0 CImage.fresh).1 = false)
    (hs : IsSameColour (capture 0 CImage.fresh).2 = false) :
    (ExecuteInternalWith WD_SUCCESS status_code capture encode this).2.2 =
        (ClearImage this).2 ++
          [Event.alloc, Event.capture 0, Event.uniformity (capture 0 CImage.fresh).2,
            Event.encode (some (capture 0 CImage.fresh).2), Event.release] ∧
      captureCount (ExecuteInternalWith WD_SUCCESS status_code capture encode this).2.2 = 1 ∧
      sleepCount (ExecuteInternalWith WD_SUCCESS status_code capture encode this).2.2 = 0 ∧
      (FAILED (encode (some (capture 0 CImage.fresh).2) "").1 = false →
        (ExecuteInternalWith WD_SUCCESS status_code capture encode this).2.1 =
          Response.success (encode (some (capture 0 CImage.fresh).2) "").2) := by
  have hl := loop_accept capture 4 0 this hf hs
  have he := ExecuteInternalWith_finished WD_SUCCESS status_code capture encode this
    (capture 0 CImage.fresh).2 hb (by rw [hl])
  rw [hl] at he
  rw [he]
  have h1 : captureCount [Event.alloc, Event.capture 0,
      Event.uniformity (capture 0 CImage.fresh).2,
      Event.encode (some (capture 0 CImage.fresh).2), Event.release] = 1 := rfl
  have h2 : sleepCount [Event.alloc, Event.capture 0,
      Event.uniformity (capture 0 CImage.fresh).2,
      Event.encode (some (capture 0 CImage.fresh).2), Event.release] = 0 := rfl
  refine ⟨by simp, ?_, ?_, ?_⟩
  · simp only [List.append_assoc, List.cons_append, List.nil_append, captureCount_append,
      captureCount_ClearImage, h1]
  · simp only [List.append_assoc, List.cons_append, List.nil_append, sleepCount_append,
      sleepCount_ClearImage, h2]
  · intro hok
    simp [hok]

/-- C7 at a concrete input: the 2x2 window red, red; red, blue, captured by
`CaptureBrowser` and encoded by `GetBase64Data`. -/
theorem C7_first_varied_image_is_accepted_witness :
    IsSameColour (CaptureBrowser redBlueWindow CImage.fresh).2.1 = false ∧
      (ExecuteInternal redBlueWorld Handler.init).2.2 =
        [Event.alloc, Event.capture 0,
          Event.uniformity (CaptureBrowser redBlueWindow CImage.fresh).2.1,
          Event.encode (some (CaptureBrowser redBlueWindow CImage.fresh).2.1), Event.release] ∧
      (ExecuteInternal redBlueWorld Handler.init).2.1 = Response.success "iVBORw==" :=
  have h := C7_first_varied_image_is_accepted 0 0
    (fun i image => ((CaptureBrowser (redBlueWorld.browser i) image).1,
      (CaptureBrowser (redBlueWorld.browser i) image).2.1))
    (GetBase64Data redBlueWorld.streams) Handler.init rfl rfl redBlue_not_uniform
  ⟨redBlue_not_uniform, h.1, h.2.2.2 rfl⟩

/-- C9. When browser resolution succeeds, no capture attempt of the run fails
and the call of `GetBase64Data` made in the run reports a failure,
`ExecuteInternal` sets the success response with the empty string, and the
image the encoder was given is released right after the encoder's call:
`image_` is `NULL` on return. -/
theorem C9_encode_failure_gives_empty_payload (WD_SUCCESS status_code : Int)
    (capture : Nat → CImage → HRESULT × CImage)
    (encode : Option CImage → String → HRESULT × String) (this : Handler)
    (hb : status_code = WD_SUCCESS)
    (hcap : ∀ i,
      Event.capture i ∈ (ExecuteInternalWith WD_SUCCESS status_code capture encode this).2.2 →
        FAILED (capture i CImage.fresh).1 = false)
    (henc : ∀ image,
      Event.encode image ∈ (ExecuteInternalWith WD_SUCCESS status_code capture encode this).2.2 →
        FAILED (encode image "").1 = true) :
    (ExecuteInternalWith WD_SUCCESS status_code capture encode this).2.1 = Response.success "" ∧
      (ExecuteInternalWith WD_SUCCESS status_code capture encode this).1.image_ = none ∧
      ∃ j events,
        (ExecuteInternalWith WD_SUCCESS status_code capture encode this).2.2 =
          events ++ [Event.encode (some (capture j CImage.fresh).2), Event.release] := by
  obtain ⟨tail, htail⟩ :=
    ExecuteInternalWith_events WD_SUCCESS status_code capture encode this hb
  obtain ⟨j, he⟩ := loop_finished_of_captures capture 4 0 this
    (fun j hj => hcap j (by rw [htail]; exact List.mem_append_left _ hj))
  have hrun := ExecuteInternalWith_finished WD_SUCCESS status_code capture encode this _ hb he
  have hfail : FAILED (encode (some (capture j CImage.fresh).2) "").1 = true :=
    henc _ (by rw [hrun]; simp)
  rw [hrun]
  exact ⟨by simp [hfail], rfl, j, (ExecuteInternal.loop capture 4 0 this).2, rfl⟩

theorem empty_uniform :
    IsSameColour (CaptureBrowser emptyWindow CImage.fresh).2.1 = true := by
  rw [IsSameColour_eq_true_iff]
  intro i j h1 h2 _ _
  exact absurd h2 (by
    have : (CaptureBrowser emptyWindow CImage.fresh).2.1.GetWidth = 0 := rfl
    omega)

/-- C9 at a concrete input: a content window of size zero at every try, so
that no bitmap is made, and a stream whose `Save` fails on an image without a
bitmap and succeeds on any other: the one call of `GetBase64Data` in the run
fails, though the encoder does not fail on every image. -/
theorem C9_encode_failure_gives_empty_payload_witness :
    FAILED (GetBase64Data bitmapStreams (some (CaptureBrowser emptyWindow CImage.fresh).2.1)
        "").1 = true ∧
      FAILED (GetBase64Data bitmapStreams (some (CaptureBrowser redBlueWindow CImage.fresh).2.1)
        "").1 = false ∧
      (ExecuteInternal noBitmapWorld Handler.init).2.1 = Response.success "" ∧
      (ExecuteInternal noBitmapWorld Handler.init).1.image_ = none :=
  have hrun := ExecuteInternalWith_all_uniform 0 0
    (fun i image => ((CaptureBrowser (noBitmapWorld.browser i) image).1,
      (CaptureBrowser (noBitmapWorld.browser i) image).2.1))
    (GetBase64Data noBitmapWorld.streams) Handler.init rfl (fun _ _ => rfl)
    (fun _ _ => empty_uniform)
  have h := C9_encode_failure_gives_empty_payload 0 0
    (fun i image => ((CaptureBrowser (noBitmapWorld.browser i) image).1,
      (CaptureBrowser (noBitmapWorld.browser i) image).2.1))
    (GetBase64Data noBitmapWorld.streams) Handler.init rfl (fun _ _ => rfl)
    (fun image himage => by
      rw [hrun] at himage
      simp [ClearImage, Handler.init] at himage
      subst himage
      rfl)
  ⟨rfl, rfl, h.1, h.2.1⟩

/-- C1. When browser resolution succeeds and each of the four capture
attempts succeeds with an image of one colour, `ExecuteInternal` makes 4
capture attempts and 4 sleeps of 2000 ms, one after every attempt, the fourth
included; it then calls the encoder on the image of the fourth attempt,
releases it, and answers the success response with the encoder's string (the
empty string when the encoder fails). -/
theorem C1_uniform_images_sleep_after_every_attempt (WD_SUCCESS status_code : Int)
    (capture : Nat → CImage → HRESULT × CImage)
    (encode : Option CImage → String → HRESULT × String) (this : Handler)
    (hb : status_code = WD_SUCCESS)
    (hf : ∀ i, i < 4 → FAILED (capture i CImage.fresh).1 = false)
    (hs : ∀ i, i < 4 → IsSameColour (capture i CImage.fresh).2 = true) :
    ExecuteInternalWith WD_SUCCESS status_code capture encode this =
        ({ image_ := none },
          Response.success
            (if FAILED (encode (some (capture 3 CImage.fresh).2) "").1 then ""
              else (encode (some (capture 3 CImage.fresh).2) "").2),
          (ClearImage this).2 ++
            [Event.alloc, Event.capture 0, Event.uniformity (capture 0 CImage.fresh).2,
              Event.sleep 2000, Event.release,
              Event.alloc, Event.capture 1, Event.uniformity (capture 1 CImage.fresh).2,
              Event.sleep 2000, Event.release,
              Event.alloc, Event.capture 2, Event.uniformity (capture 2 CImage.fresh).2,
              Event.sleep 2000, Event.release,
              Event.alloc, Event.capture 3, Event.uniformity (capture 3 CImage.fresh).2,
              Event.sleep 2000,
              Event.encode (some (capture 3 CImage.fresh).2), Event.release]) ∧
      captureCount (ExecuteInternalWith WD_SUCCESS status_code capture encode this).2.2 = 4 ∧
      sleepCount (ExecuteInternalWith WD_SUCCESS status_code capture encode this).2.2 = 4 := by
  exact ⟨ExecuteInternalWith_all_uniform WD_SUCCESS status_code capture encode this hb hf hs,
    ExecuteInternalWith_all_uniform_counts WD_SUCCESS status_code capture encode this hb hf hs⟩

/-- C1 at a concrete input: the 1x1 window of one colour at all four tries,
captured by `CaptureBrowser`: four attempts and four sleeps. -/
theorem C1_uniform_images_sleep_after_every_attempt_witness :
    IsSameColour (CaptureBrowser solidWindow CImage.fresh).2.1 = true ∧
      captureCount (ExecuteInternal solidWorld Handler.init).2.2 = 4 ∧
      sleepCount (ExecuteInternal solidWorld Handler.init).2.2 = 4 ∧
      (ExecuteInternal solidWorld Handler.init).2.1 = Response.success "iVBORw==" :=
  have h := C1_uniform_images_sleep_after_every_attempt 0 0
    (fun i image => ((CaptureBrowser (solidWorld.browser i) image).1,
      (CaptureBrowser (solidWorld.browser i) image).2.1))
    (GetBase64Data solidWorld.streams) Handler.init rfl (fun _ _ => rfl)
    (fun _ _ => solid_uniform)
  ⟨solid_uniform, h.2.1, h.2.2, congrArg (fun r => r.2.1) h.1⟩

/-- C3. `CaptureBrowser` returns `S_OK`, which is not a failed `HRESULT`,
whatever `CImage::Create` and `PrintWindow` answer; on a window for which both
answer `FALSE` it logs the two warnings and still returns `S_OK`. -/
theorem C3_CaptureBrowser_returns_S_OK_on_failure (browser : Window) (image_ : CImage) :
    (CaptureBrowser browser image_).1 = S_OK ∧
      FAILED (CaptureBrowser browser image_).1 = false ∧
      (emptyWindow.Create CImage.fresh 0 0 32).1 = false ∧
      (emptyWindow.PrintWindow CImage.fresh).1 = false ∧
      (CaptureBrowser emptyWindow CImage.fresh).1 = S_OK ∧
      (CaptureBrowser emptyWindow CImage.fresh).2.2 =
        ["Unable to initialize image object",
          "PrintWindow API is not able to get content window screenshot"] :=
  ⟨rfl, rfl, rfl, rfl, rfl, rfl⟩

theorem unpainted_uniform :
    IsSameColour (CaptureBrowser unpaintedWindow CImage.fresh).2.1 = true := by
  rw [IsSameColour_eq_true_iff]
  intro i j _ _ _ _
  rfl

/-- C5. The capturer of `ExecuteInternal` is `CaptureBrowser`, which reports no
failure to it in any world. On a window that `PrintWindow` cannot render the
first try is not the last: `ExecuteInternal` runs the uniformity check, sleeps,
makes 4 capture attempts and 4 sleeps, calls the encoder, and answers its
string, not the empty payload; on a window of size zero, where `Create` fails
too, it makes 4 attempts and 4 sleeps as well. -/
theorem C5_platform_failure_does_not_end_the_run (w : World) (i : Nat) (image : CImage) :
    FAILED (CaptureBrowser (w.browser i) image).1 = false ∧
      (unpaintedWindow.PrintWindow
        (unpaintedWindow.Create CImage.fresh 2 2 32).2).1 = false ∧
      ExecuteInternal unpaintedWorld Handler.init =
        ({ image_ := none }, Response.success "iVBORw==",
          [Event.alloc, Event.capture 0,
            Event.uniformity (CaptureBrowser unpaintedWindow CImage.fresh).2.1,
            Event.sleep 2000, Event.release,
            Event.alloc, Event.capture 1,
            Event.uniformity (CaptureBrowser unpaintedWindow CImage.fresh).2.1,
            Event.sleep 2000, Event.release,
            Event.alloc, Event.capture 2,
            Event.uniformity (CaptureBrowser unpaintedWindow CImage.fresh).2.1,
            Event.sleep 2000, Event.release,
            Event.alloc, Event.capture 3,
            Event.uniformity (CaptureBrowser unpaintedWindow CImage.fresh).2.1,
            Event.sleep 2000,
            Event.encode (some (CaptureBrowser unpaintedWindow CImage.fresh).2.1),
            Event.release]) ∧
      captureCount (ExecuteInternal unpaintedWorld Handler.init).2.2 = 4 ∧
      sleepCount (ExecuteInternal unpaintedWorld Handler.init).2.2 = 4 ∧
      (emptyWindow.Create CImage.fresh 0 0 32).1 = false ∧
      (emptyWindow.PrintWindow CImage.fresh).1 = false ∧
      captureCount (ExecuteInternal emptyWindowWorld Handler.init).2.2 = 4 ∧
      sleepCount (ExecuteInternal emptyWindowWorld Handler.init).2.2 = 4 :=
  have hrun := ExecuteInternalWith_all_uniform 0 0
    (fun i image => ((CaptureBrowser (unpaintedWorld.browser i) image).1,
      (CaptureBrowser (unpaintedWorld.browser i) image).2.1))
    (GetBase64Data unpaintedWorld.streams) Handler.init rfl (fun _ _ => rfl)
    (fun _ _ => unpainted_uniform)
  have hcount := ExecuteInternalWith_all_uniform_counts 0 0
    (fun i image => ((CaptureBrowser (unpaintedWorld.browser i) image).1,
      (CaptureBrowser (unpaintedWorld.browser i) image).2.1))
    (GetBase64Data unpaintedWorld.streams) Handler.init rfl (fun _ _ => rfl)
    (fun _ _ => unpainted_uniform)
  have hempty := ExecuteInternalWith_all_uniform_counts 0 0
    (fun i image => ((CaptureBrowser (emptyWindowWorld.browser i) image).1,
      (CaptureBrowser (emptyWindowWorld.browser i) image).2.1))
    (GetBase64Data emptyWindowWorld.streams) Handler.init rfl (fun _ _ => rfl)
    (fun _ _ => empty_uniform)
  ⟨rfl, rfl, hrun, hcount.1, hcount.2, rfl, rfl, hempty.1, hempty.2⟩

/-! ## The image resource -/

theorem liveImages_cons (live : Int) (e : Event) (rest : List Event) :
    liveImages live (e :: rest) = liveImages (liveImages live [e]) rest := by
  cases e <;> rfl

theorem liveImages_append (live : Int) (a b : List Event) :
    liveImages live (a ++ b) = liveImages (liveImages live a) b := by
  induction a generalizing live with
  | nil => rfl
  | cons e rest ih =>
    rw [List.cons_append, liveImages_cons, ih, liveImages_cons live e rest]

theorem atMostOneLive_start (live : Int) (events : List Event)
    (h : atMostOneLive live events = true) : 0 ≤ live ∧ live ≤ 1 := by
  cases events with
  | nil => simpa [atMostOneLive] using h
  | cons e rest =>
    simp only [atMostOneLive, Bool.and_eq_true, decide_eq_true_eq] at h
    exact h.1

theorem atMostOneLive_append (live : Int) (a b : List Event)
    (ha : atMostOneLive live a = true) (hb : atMostOneLive (liveImages live a) b = true) :
    atMostOneLive live (a ++ b) = true := by
  induction a generalizing live with
  | nil => exact hb
  | cons e rest ih =>
    simp only [atMostOneLive, Bool.and_eq_true, decide_eq_true_eq] at ha
    rw [liveImages_cons] at hb
    simp only [List.cons_append, atMostOneLive, Bool.and_eq_true, decide_eq_true_eq]
    exact ⟨ha.1, ih _ ha.2 hb⟩

theorem atMostOneLive_take (live : Int) (events : List Event)
    (h : atMostOneLive live events = true) (n : Nat) :
    0 ≤ liveImages live (events.take n) ∧ liveImages live (events.take n) ≤ 1 := by
  induction events generalizing live n with
  | nil => simpa [liveImages] using atMostOneLive_start live [] h
  | cons e rest ih =>
    cases n with
    | zero => simpa [liveImages] using atMostOneLive_start live (e :: rest) h
    | succ n =>
      simp only [atMostOneLive, Bool.and_eq_true, decide_eq_true_eq] at h
      rw [List.take_succ_cons, liveImages_cons]
      exact ih _ h.2 n

theorem atMostOneLive_alloc (live : Int) (events : List Event)
    (h : atMostOneLive live events = true) (n : Nat) (hn : events[n]? = some Event.alloc) :
    liveImages live (events.take n) = 0 := by
  induction events generalizing live n with
  | nil => simp at hn
  | cons e rest ih =>
    simp only [atMostOneLive, Bool.and_eq_true, decide_eq_true_eq] at h
    cases n with
    | zero =>
      simp only [List.getElem?_cons_zero, Option.some.injEq] at hn
      subst hn
      have h2 := atMostOneLive_start _ _ h.2
      simp only [liveImages] at h2
      simp only [List.take_zero, liveImages]
      omega
    | succ n =>
      simp only [List.getElem?_cons_succ] at hn
      rw [List.take_succ_cons, liveImages_cons]
      exact ih _ h.2 n hn

theorem ClearImage_live (this : Handler) (events : List Event) :
    liveImages this.held ((ClearImage this).2 ++ events) = liveImages 0 events ∧
      atMostOneLive this.held ((ClearImage this).2 ++ events) = atMostOneLive 0 events := by
  rcases this with ⟨image⟩
  cases image with
  | none => exact ⟨rfl, rfl⟩
  | some image =>
    constructor
    · show liveImages (1 - 1) events = liveImages 0 events
      rfl
    · show (decide ((0 : Int) ≤ 1 ∧ (1 : Int) ≤ 1) && atMostOneLive (1 - 1) events) =
        atMostOneLive 0 events
      simp

theorem loop_live (capture : Nat → CImage → HRESULT × CImage) (tries i : Nat) (this : Handler) :
    atMostOneLive this.held (ExecuteInternal.loop capture tries i this).2 = true ∧
      liveImages this.held (ExecuteInternal.loop capture tries i this).2 =
        (ExecuteInternal.loop capture tries i this).1.handler.held := by
  generalize hn : tries - i = n
  induction n generalizing i this with
  | zero =>
    apply loop_cases capture tries i this
      (fun r => atMostOneLive this.held r.2 = true ∧ liveImages this.held r.2 = r.1.handler.held)
    · intro _
      rw [(ClearImage_live this _).1, (ClearImage_live this _).2]
      exact ⟨rfl, rfl⟩
    · intro _ _ hi
      omega
    · intro _ _ _
      rw [(ClearImage_live this _).1, (ClearImage_live this _).2]
      exact ⟨rfl, rfl⟩
    · intro _ _
      rw [(ClearImage_live this _).1, (ClearImage_live this _).2]
      exact ⟨rfl, rfl⟩
  | succ n ih =>
    apply loop_cases capture tries i this
      (fun r => atMostOneLive this.held r.2 = true ∧ liveImages this.held r.2 = r.1.handler.held)
    · intro _
      rw [(ClearImage_live this _).1, (ClearImage_live this _).2]
      exact ⟨rfl, rfl⟩
    · intro _ _ hi
      have h := ih (i + 1) { image_ := some (capture i CImage.fresh).2 } (by omega)
      have hbody : liveImages this.held ((ClearImage this).2 ++
          [Event.alloc, Event.capture i, Event.uniformity (capture i CImage.fresh).2,
            Event.sleep 2000]) = 1 := by
        rw [(ClearImage_live this _).1]
        rfl
      have hbody2 : atMostOneLive this.held ((ClearImage this).2 ++
          [Event.alloc, Event.capture i, Event.uniformity (capture i CImage.fresh).2,
            Event.sleep 2000]) = true := by
        rw [(ClearImage_live this _).2]
        rfl
      constructor
      · apply atMostOneLive_append _ _ _ hbody2
        rw [hbody]
        exact h.1
      · show liveImages this.held (_ ++ _) = _
        rw [liveImages_append, hbody]
        exact h.2
    · intro _ _ _
      rw [(ClearImage_live this _).1, (ClearImage_live this _).2]
      exact ⟨rfl, rfl⟩
    · intro _ _
      rw [(ClearImage_live this _).1, (ClearImage_live this _).2]
      exact ⟨rfl, rfl⟩

theorem ExecuteInternalWith_live (WD_SUCCESS status_code : Int)
    (capture : Nat → CImage → HRESULT × CImage)
    (encode : Option CImage → String → HRESULT × String) :
    (ExecuteInternalWith WD_SUCCESS status_code capture encode Handler.init).1.image_ = none ∧
      atMostOneLive 0
        (ExecuteInternalWith WD_SUCCESS status_code capture encode Handler.init).2.2 = true ∧
      liveImages 0
        (ExecuteInternalWith WD_SUCCESS status_code capture encode Handler.init).2.2 = 0 := by
  by_cases hb : status_code = WD_SUCCESS
  · have hl := loop_live capture 4 0 Handler.init
    rcases loop_exit capture 4 0 Handler.init with ⟨j, _, _, he⟩ | ⟨j, _, _, he⟩
    · rw [ExecuteInternalWith_returned WD_SUCCESS status_code capture encode _ _ _ hb he]
      rw [he] at hl
      exact ⟨rfl, hl.1, hl.2⟩
    · rw [ExecuteInternalWith_finished WD_SUCCESS status_code capture encode _ _ hb he]
      rw [he] at hl
      refine ⟨rfl, ?_, ?_⟩
      · apply atMostOneLive_append _ _ _ hl.1
        rw [hl.2]
        rfl
      · show liveImages 0 (_ ++ _) = 0
        rw [liveImages_append]
        have h2 := hl.2
        change liveImages 0 _ = 1 at h2
        rw [h2]
        rfl
  · have he : ExecuteInternalWith WD_SUCCESS status_code capture encode Handler.init =
        (Handler.init, Response.error status_code "Unable to get browser", []) := by
      unfold ExecuteInternalWith
      simp [hb]
    rw [he]
    exact ⟨rfl, rfl, rfl⟩

/-- C10. Started on a handler whose `image_` is `NULL`, `ExecuteInternal`
returns with `image_` equal to `NULL` on every path; at every moment of the
call zero or one image is alive, an image is allocated only when none is
alive, and none is alive at the end. -/
theorem C10_one_image_at_a_time (WD_SUCCESS status_code : Int)
    (capture : Nat → CImage → HRESULT × CImage)
    (encode : Option CImage → String → HRESULT × String) :
    (ExecuteInternalWith WD_SUCCESS status_code capture encode Handler.init).1.image_ = none ∧
      (∀ n, 0 ≤ liveImages 0
            ((ExecuteInternalWith WD_SUCCESS status_code capture encode Handler.init).2.2.take n) ∧
          liveImages 0
            ((ExecuteInternalWith WD_SUCCESS status_code capture encode Handler.init).2.2.take n)
            ≤ 1) ∧
      (∀ n, (ExecuteInternalWith WD_SUCCESS status_code capture encode Handler.init).2.2[n]? =
            some Event.alloc →
          liveImages 0
            ((ExecuteInternalWith WD_SUCCESS status_code capture encode Handler.init).2.2.take n)
            = 0) ∧
      liveImages 0
        (ExecuteInternalWith WD_SUCCESS status_code capture encode Handler.init).2.2 = 0 := by
  have h := ExecuteInternalWith_live WD_SUCCESS status_code capture encode
  exact ⟨h.1, atMostOneLive_take _ _ h.2.1, atMostOneLive_alloc _ _ h.2.1, h.2.2⟩

/-! ## GetBase64Data -/

end webdriver
